import Mathlib

/-!
# RateConTracker — verification of the extraction-and-reconciliation pipeline

Shallow embedding of `src/ratecon_tracker.py` (the core logic: the field
extractor `extract_data_from_pdf`, the rate reconciler `process_dataframe`,
and the deduplicating ingest pipeline `run_file_processing`), together with
theorems settling the specification claims.

Numeric conventions: Python floats are modelled as exact rationals (ℚ);
every concrete value appearing in the claims (785, 800, 417.5, 452.5 and the
quotients they produce at base 400 / unit 35) is exactly representable in
binary floating point and the involved operations are exact there, so the
rational model and float64 agree on every claim instance.  Python's built-in
`round` (round-half-to-even) is modelled by `pyRound`.
-/

namespace RateCon

/-! ## Character classes (Python `re` semantics, ASCII fragment) -/

/-- Python's `\s` class (ASCII part): space, tab, newline, carriage return,
vertical tab, form feed. -/
def isPySpace (c : Char) : Bool :=
  c == ' ' || c == '\t' || c == '\n' || c == '\r' || c == '\x0b' || c == '\x0c'

/-- Python's `\d` class (ASCII part). -/
def isPyDigit (c : Char) : Bool :=
  '0'.val ≤ c.val && c.val ≤ '9'.val

/-- Python's `str.strip()`: drop leading and trailing whitespace. -/
def pyStrip (s : String) : String :=
  String.mk (((s.data.dropWhile isPySpace).reverse.dropWhile isPySpace).reverse)

/-! ## A small regex engine

Each pattern used by the source has the shape
`LITERAL  \s*  [\$?]  ( capture of greedy character classes )`,
the capture group being last.  We embed patterns as a list of items
(`lit` = case-insensitive literal, `cls p lo hi` = greedy quantified
character class) for the prefix, plus a group (list of classes).
`matchItems` performs the backtracking search of Python `re` (greedy
quantifiers tried longest-first), `searchCapture` scans start positions
left to right like `re.search`, and the group itself is matched greedily
without backtracking — faithful here because nothing follows the group and
every non-initial group item has a zero minimum. -/

inductive RItem where
  | lit : List Char → RItem
  | cls : (Char → Bool) → Nat → Option Nat → RItem

/-- Number of leading characters of `s` satisfying `p`. -/
def countLeading (p : Char → Bool) : List Char → Nat
  | [] => 0
  | c :: cs => if p c then countLeading p cs + 1 else 0

/-- Try consuming `j, j-1, …, lo` characters (greedy: longest first),
returning the first success of the continuation. -/
def tryCounts {α : Type} (lo : Nat) (cont : Nat → Option α) : Nat → Option α
  | 0 => if lo = 0 then cont 0 else none
  | j + 1 =>
    if j + 1 < lo then none
    else
      match cont (j + 1) with
      | some r => some r
      | none => tryCounts lo cont j

/-- Match a case-insensitive literal at the head of the text, returning
the remaining text. -/
def matchLit : List Char → List Char → Option (List Char)
  | [], s => some s
  | _ :: _, [] => none
  | c :: cs, d :: ds => if c.toLower == d.toLower then matchLit cs ds else none

/-- Backtracking matcher for a sequence of items at the head of the text;
on success the continuation receives the remaining text. -/
def matchItems {α : Type} : List RItem → List Char → (List Char → Option α) → Option α
  | [], s, cont => cont s
  | RItem.lit l :: rest, s, cont =>
    match matchLit l s with
    | some s2 => matchItems rest s2 cont
    | none => none
  | RItem.cls p lo hi :: rest, s, cont =>
    let mx := match hi with
      | none => countLeading p s
      | some h => min (countLeading p s) h
    tryCounts lo (fun j => matchItems rest (s.drop j) cont) mx

/-- Greedy (maximal-munch) matcher for the capture group, returning the
number of characters consumed. -/
def matchGrp : List RItem → List Char → Option Nat
  | [], _ => some 0
  | RItem.lit l :: rest, s =>
    match matchLit l s with
    | some s2 => (matchGrp rest s2).map (fun n => l.length + n)
    | none => none
  | RItem.cls p lo hi :: rest, s =>
    let mx := match hi with
      | none => countLeading p s
      | some h => min (countLeading p s) h
    if mx < lo then none else (matchGrp rest (s.drop mx)).map (fun n => mx + n)

/-- A pattern: prefix items followed by a trailing capture group. -/
structure RPat where
  pre : List RItem
  grp : List RItem

/-- `re.search`: scan start positions left to right, return the first
position's capture (the characters consumed by the group). -/
def searchCapture (pat : RPat) : List Char → Option (List Char)
  | [] => matchItems pat.pre [] (fun s2 => (matchGrp pat.grp s2).map (fun n => s2.take n))
  | c :: t =>
    match matchItems pat.pre (c :: t) (fun s2 => (matchGrp pat.grp s2).map (fun n => s2.take n)) with
    | some cap => some cap
    | none => searchCapture pat t

/-! ## The source's pattern lists (`extract_data_from_pdf`, lines 203–227) -/

/-- `\s*` -/
def wsStar : RItem := RItem.cls isPySpace 0 none

/-- `(\S+)` -/
def nonSpacePlus : RItem := RItem.cls (fun c => !isPySpace c) 1 none

/-- `\$?` -/
def dollarOpt : RItem := RItem.cls (fun c => c == '$') 0 (some 1)

/-- `([\d,]+\.?\d{0,2})` -/
def rateGrp : List RItem :=
  [RItem.cls (fun c => isPyDigit c || c == ',') 1 none,
   RItem.cls (fun c => c == '.') 0 (some 1),
   RItem.cls isPyDigit 0 (some 2)]

/-- `([^\n]+)` -/
def notNlPlus : RItem := RItem.cls (fun c => c != '\n') 1 none

/-- `r"Route #\s*(\S+)"` — first (highest-priority) reference pattern. -/
def routePat : RPat := ⟨[RItem.lit "Route #".data, wsStar], [nonSpacePlus]⟩

/-- `r"Reference #\s*(\S+)"` -/
def referencePat : RPat := ⟨[RItem.lit "Reference #".data, wsStar], [nonSpacePlus]⟩

def ref_patterns : List RPat :=
  [routePat,
   referencePat,
   ⟨[RItem.lit "Pro #".data, wsStar], [nonSpacePlus]⟩,
   ⟨[RItem.lit "Load #".data, wsStar], [nonSpacePlus]⟩,
   ⟨[RItem.lit "Job #".data, wsStar], [nonSpacePlus]⟩]

def rate_patterns : List RPat :=
  [⟨[RItem.lit "Total Rate:".data, wsStar, dollarOpt], rateGrp⟩,
   ⟨[RItem.lit "Total Cost".data, wsStar, dollarOpt], rateGrp⟩,
   ⟨[RItem.lit "Amount:".data, wsStar, dollarOpt], rateGrp⟩,
   ⟨[RItem.lit "Rate:".data, wsStar, dollarOpt], rateGrp⟩]

def equip_patterns : List RPat :=
  [⟨[RItem.lit "Equipment:".data, wsStar], [notNlPlus]⟩,
   ⟨[RItem.lit "Trailer Type:".data, wsStar], [notNlPlus]⟩,
   ⟨[RItem.lit "Equipment Type:".data, wsStar], [notNlPlus]⟩]

def container_patterns : List RPat :=
  [⟨[RItem.lit "Container #:".data, wsStar], [nonSpacePlus]⟩,
   ⟨[RItem.lit "Container Number:".data, wsStar], [nonSpacePlus]⟩,
   ⟨[RItem.lit "Container ID:".data, wsStar], [nonSpacePlus]⟩]

/-- `find_match(patterns, text)` (source lines 229–234): first pattern that
matches wins; its first capture group is returned `.strip()`ed. -/
def find_match : List RPat → String → Option String
  | [], _ => none
  | p :: rest, text =>
    match searchCapture p text.data with
    | some cap => some (pyStrip (String.mk cap))
    | none => find_match rest text

/-! ## `extract_data_from_pdf` (source lines 197–250) -/

/-- `"\n".join(p.extract_text() for p in pdf.pages if p.extract_text() or "")`:
pages are modelled as `Option String` (`none` = `extract_text()` returned
`None`); falsy page texts (None or empty) are filtered out. -/
def joinPages (pages : List (Option String)) : String :=
  String.intercalate "\n" (pages.filterMap (fun p? =>
    match p? with
    | none => none
    | some t => if t == "" then none else some t))

/-- `str.replace(",", "")` applied to the matched rate: drop every comma. -/
def removeCommas (s : String) : String :=
  String.mk (s.data.filter (fun c => !(c == ',')))

/-- `extract_data_from_pdf` (source lines 197–250).  The document argument is
the decoded page-text list; `Except.error` models any exception raised while
reading the PDF, which the source catches and converts to the all-sentinel
tuple.  Returns `(reference, rate, equipment, container)`.  The
`if … == "" …` branches mirror Python's truthiness tests
(`ref if ref else "Unknown"` etc., which treat the empty string as falsy). -/
def extract_data_from_pdf (doc : Except Unit (List (Option String))) :
    String × String × String × String :=
  match doc with
  | Except.error _ => ("Unknown", "0.00", "None", "")
  | Except.ok pages =>
    let text := joinPages pages
    let ref := find_match ref_patterns text
    let rate := find_match rate_patterns text
    let equip := find_match equip_patterns text
    let container := find_match container_patterns text
    (match ref with
     | some r => if r == "" then "Unknown" else r
     | none => "Unknown",
     match rate with
     | some r => if r == "" then "0.00" else removeCommas r
     | none => "0.00",
     match equip with
     | some e => if e == "" then "None" else e
     | none => "None",
     match container with
     | some c => if c == "" then "" else c
     | none => "")

/-! ## Rate reconciliation (`process_dataframe`, source lines 253–268) -/

/-- `Config.DRAYAGE_RATE = 400` (the base rate). -/
def DRAYAGE_RATE : ℚ := 400

/-- `Config.CHASSIS_RATE = 35` (the per-unit rate). -/
def CHASSIS_RATE : ℚ := 35

/-- `Config.DEFAULT_CUSTOMER = "Covenant"`. -/
def DEFAULT_CUSTOMER : String := "Covenant"

/-- Digit list to natural number. -/
def digitsToNat (ds : List Char) : Nat :=
  ds.foldl (fun acc c => acc * 10 + (c.toNat - '0'.toNat)) 0

/-- Optional leading sign; `true` = negative. -/
def parseSign : List Char → Bool × List Char
  | '+' :: t => (false, t)
  | '-' :: t => (true, t)
  | l => (false, l)

/-- Mantissa: `digits`, `digits.digits`, `digits.` or `.digits` (at least one
digit overall), as in Python's `float()`.  Returned in integer form: the
concatenated digit value and the number of fractional digits, so that the
mantissa value is `value / 10 ^ fracLen`. -/
def parseMantissa (l : List Char) : Option ((ℕ × ℕ) × List Char) :=
  let ip := l.takeWhile isPyDigit
  let r1 := l.dropWhile isPyDigit
  match r1 with
  | '.' :: r2 =>
    let fp := r2.takeWhile isPyDigit
    let r3 := r2.dropWhile isPyDigit
    if ip.isEmpty && fp.isEmpty then none
    else some ((digitsToNat (ip ++ fp), fp.length), r3)
  | _ => if ip.isEmpty then none else some ((digitsToNat ip, 0), r1)

/-- Optional exponent part `e[±]digits`; yields the exponent and the rest. -/
def parseExp : List Char → Option (ℤ × List Char)
  | [] => some (0, [])
  | c :: t =>
    if c == 'e' || c == 'E' then
      let (sgn, t2) : ℤ × List Char :=
        match t with
        | '+' :: u => (1, u)
        | '-' :: u => (-1, u)
        | u => (1, u)
      let ds := t2.takeWhile isPyDigit
      let r := t2.dropWhile isPyDigit
      if ds.isEmpty then none else some (sgn * (digitsToNat ds : ℤ), r)
    else some (0, c :: t)

/-- The integer core of the numeric parser: Python `float()` grammar
(surrounding whitespace, optional sign, decimal mantissa, optional exponent),
returning `(negative?, mantissa digits, fractional length, exponent)`.
`none` models the coerced `NaN` on parse failure.  (The non-finite spellings
`inf`/`nan` are outside the rational model and parse to `none`.) -/
def to_numeric_raw (s : String) : Option (Bool × ℕ × ℕ × ℤ) :=
  let l1 := s.data.dropWhile isPySpace
  let l2 := (l1.reverse.dropWhile isPySpace).reverse
  let (sgn, r0) := parseSign l2
  match parseMantissa r0 with
  | none => none
  | some ((m, k), r1) =>
    match parseExp r1 with
    | none => none
    | some (e, r2) => if r2.isEmpty then some (sgn, m, k, e) else none

/-- `m * 10^e` over ℚ with a computable power. -/
def applyExp (m : ℚ) (e : ℤ) : ℚ :=
  if 0 ≤ e then m * (10 : ℚ) ^ e.toNat else m / (10 : ℚ) ^ (-e).toNat

/-- The rational value of a raw parse result:
`±(mantissa / 10 ^ fracLen) · 10 ^ exponent`. -/
def ratOfRaw : Bool × ℕ × ℕ × ℤ → ℚ
  | (neg, m, k, e) =>
    (if neg then -1 else 1) * applyExp ((m : ℚ) / (10 : ℚ) ^ k) e

/-- `pd.to_numeric(s, errors="coerce")` on a string. -/
def to_numeric (s : String) : Option ℚ :=
  (to_numeric_raw s).map ratOfRaw

/-- `str.replace("[$,]", "", regex=True)`: drop every `$` and `,`. -/
def stripDollarComma (s : String) : String :=
  String.mk (s.data.filter (fun c => !(c == '$' || c == ',')))

/-- `df_proc["Parsed Rate"]` (lines 258–260): strip `$`/`,`, parse, and
coerce parse failure to `0` (`errors="coerce"` + `.fillna(0)`). -/
def parsedRate (s : String) : ℚ :=
  (to_numeric (stripDollarComma s)).getD 0

/-- Python's built-in `round` to an integer: nearest, ties to even. -/
def pyRound (q : ℚ) : ℤ :=
  let f := ⌊q⌋
  let r := q - (f : ℚ)
  if r < 1 / 2 then f
  else if 1 / 2 < r then f + 1
  else if f % 2 = 0 then f else f + 1

/-- The lambda of lines 261–263 applied to `(p − DRAYAGE_RATE) / CHASSIS_RATE`:
`max(round(x), 0)`. -/
def chassisOf (p : ℚ) : ℤ :=
  max (pyRound ((p - DRAYAGE_RATE) / CHASSIS_RATE)) 0

/-- `df_proc["Chassis Count"]` (lines 261–263) for a row with rate string `s`. -/
def chassisCount (s : String) : ℤ :=
  chassisOf (parsedRate s)

/-- `df_proc["Expected Rate"]` (lines 264–266). -/
def expectedRate (s : String) : ℚ :=
  DRAYAGE_RATE + (chassisCount s : ℚ) * CHASSIS_RATE

/-- `df_proc["Mismatch"]` (line 267): exact numeric inequality. -/
def mismatch (s : String) : Bool :=
  parsedRate s != expectedRate s

/-! ## The ingest pipeline (`run_file_processing`, source lines 410–459) -/

/-- A persisted row of the log (`config.COLUMNS`, dict built at lines 441–453). -/
structure LoadRecord where
  dateAdded : String
  customer : String
  reference : String
  equipment : String
  container : String
  rate : String
  file : String
  status : String
  notes : String
deriving DecidableEq

/-- An entry of `skipped_files` (a `{"file": …, "reason": …}` dict). -/
structure SkippedFile where
  file : String
  reason : String
deriving DecidableEq

/-- An uploaded file: its display name and its decoded page texts
(`Except.error` models an unreadable document). -/
structure UploadedFile where
  name : String
  doc : Except Unit (List (Option String))

/-- `set(existing_df["Reference #"].astype(str))` as a list (membership only). -/
def existingRefs (store : List LoadRecord) : List String :=
  store.map (fun r => r.reference)

/-- `set(existing_df["File"].astype(str))` as a list (membership only). -/
def existingFiles (store : List LoadRecord) : List String :=
  store.map (fun r => r.file)

/-- The `for` loop of lines 425–454: `ef` is the (never-updated) filename set,
`refs` the incrementally-updated reference set.  Returns
`(new_records, skipped_files)` in input order. -/
def processFiles (today : String) (ef : List String) (refs : List String) :
    List UploadedFile → List LoadRecord × List SkippedFile
  | [] => ([], [])
  | f :: rest =>
    if ef.contains f.name then
      let r := processFiles today ef refs rest
      (r.1, ⟨f.name, "Duplicate filename."⟩ :: r.2)
    else
      let e := extract_data_from_pdf f.doc
      if e.1 = "Unknown" then
        let r := processFiles today ef refs rest
        (r.1, ⟨f.name, "Unsupported Format."⟩ :: r.2)
      else if refs.contains e.1 then
        let r := processFiles today ef refs rest
        (r.1, ⟨f.name, "Duplicate Reference # " ++ e.1⟩ :: r.2)
      else
        let r := processFiles today ef (e.1 :: refs) rest
        (⟨today, DEFAULT_CUSTOMER, e.1, e.2.2.1, e.2.2.2, e.2.1, f.name, "Active", ""⟩ :: r.1,
         r.2)

/-- `run_file_processing` (lines 410–459) minus the session-state plumbing:
build the filename and reference lookup sets from the loaded log and run the
loop.  (`today` stands for `datetime.now().strftime("%Y-%m-%d")`.) -/
def run_file_processing (today : String) (store : List LoadRecord)
    (files : List UploadedFile) : List LoadRecord × List SkippedFile :=
  processFiles today (existingFiles store) (existingRefs store) files

/-- Application state: the Google-Sheet log (`store`) plus the session-state
fields touched by the two callbacks. -/
structure AppState where
  store : List LoadRecord
  processed_records : List LoadRecord
  skipped_files : List SkippedFile
  processing_complete : Bool

/-- `run_file_processing` as a state transformer, including the
`if not uploaded_files: return` guard (lines 411–413) and the session-state
writes (lines 457–459).  The store is only read. -/
def run_file_processing_st (today : String) (files : List UploadedFile)
    (st : AppState) : AppState :=
  if files.isEmpty then st
  else
    let r := run_file_processing today st.store files
    { st with processed_records := r.1, skipped_files := r.2, processing_complete := true }

/-- `run_save_records` (lines 462–474): append the pending records to the
sheet and reset the session state; no-op when nothing is pending. -/
def run_save_records_st (st : AppState) : AppState :=
  if st.processed_records.isEmpty then st
  else
    { st with
      store := st.store ++ st.processed_records,
      processed_records := [],
      skipped_files := [],
      processing_complete := false }

/-! ## Helper lemmas -/

/-- Evaluate `pyRound` once the floor of the argument is known. -/
theorem pyRound_eval (q : ℚ) (f : ℤ) (h1 : (f : ℚ) ≤ q) (h2 : q < (f : ℚ) + 1) :
    pyRound q =
      if q - (f : ℚ) < 1 / 2 then f
      else if 1 / 2 < q - (f : ℚ) then f + 1
      else if f % 2 = 0 then f else f + 1 := by
  have hf : ⌊q⌋ = f := by
    rw [Int.floor_eq_iff]
    exact ⟨h1, by exact_mod_cast h2⟩
  simp only [pyRound, hf]

/-- `parsedRate` evaluated through the integer core of the parser. -/
theorem parsedRate_of_raw (s : String) (raw : Bool × ℕ × ℕ × ℤ)
    (h : to_numeric_raw (stripDollarComma s) = some raw) :
    parsedRate s = ratOfRaw raw := by
  rw [parsedRate, to_numeric, h]
  rfl

theorem parsedRate_785 : parsedRate "$785.00" = 785 := by
  rw [parsedRate_of_raw "$785.00" (false, 78500, 2, 0) (by decide)]
  norm_num [ratOfRaw, applyExp]

theorem parsedRate_800 : parsedRate "$800.00" = 800 := by
  rw [parsedRate_of_raw "$800.00" (false, 80000, 2, 0) (by decide)]
  norm_num [ratOfRaw, applyExp]

theorem chassisOf_785 : chassisOf 785 = 11 := by
  have hq : ((785 : ℚ) - DRAYAGE_RATE) / CHASSIS_RATE = 11 := by
    norm_num [DRAYAGE_RATE, CHASSIS_RATE]
  rw [chassisOf, hq, pyRound_eval 11 11 (by norm_num) (by norm_num)]
  norm_num

theorem chassisOf_800 : chassisOf 800 = 11 := by
  have hq : ((800 : ℚ) - DRAYAGE_RATE) / CHASSIS_RATE = 80 / 7 := by
    norm_num [DRAYAGE_RATE, CHASSIS_RATE]
  rw [chassisOf, hq, pyRound_eval (80 / 7) 11 (by norm_num) (by norm_num)]
  norm_num

/-! ## Claim theorems: rate reconciliation -/

/-- C1: for every input rate value, `parsedRate` is the numeric value of the
rate string with dollar signs and commas stripped (coercing to `0` when the
string does not parse as a number), and the unit count ("Chassis Count") is
`max(round((parsedRate − baseRate) / unitRate), 0)` with `baseRate = 400`
and `unitRate = 35`, hence never negative — also when `parsedRate` is below
the base rate. -/
theorem chassisCount_formula_and_nonneg (s : String) :
    parsedRate s = (to_numeric (stripDollarComma s)).getD 0 ∧
    (to_numeric (stripDollarComma s) = none → parsedRate s = 0) ∧
    chassisCount s = max (pyRound ((parsedRate s - 400) / 35)) 0 ∧
    0 ≤ chassisCount s ∧
    (parsedRate s < 400 → 0 ≤ chassisCount s) := by
  refine ⟨rfl, fun h => by rw [parsedRate, h]; rfl, rfl, le_max_right _ _,
    fun _ => le_max_right _ _⟩

/-- Witness for C1 at the unparsable rate string `"abc"`. -/
theorem chassisCount_formula_and_nonneg_witness :
    to_numeric (stripDollarComma "abc") = none ∧ parsedRate "abc" = 0 ∧
    0 ≤ chassisCount "abc" := by
  have h := chassisCount_formula_and_nonneg "abc"
  have hn : to_numeric (stripDollarComma "abc") = none := by decide
  exact ⟨hn, h.2.1 hn, h.2.2.2.1⟩

/-- C2: for every record, `expectedRate = baseRate + unitCount · unitRate`
(hence always a value `400 + n·35` reachable by the linear pricing model with
a non-negative unit count `n`), and the mismatch flag is true iff
`parsedRate` differs from `expectedRate` under exact comparison. -/
theorem expectedRate_linear_and_mismatch_exact (s : String) :
    expectedRate s = DRAYAGE_RATE + (chassisCount s : ℚ) * CHASSIS_RATE ∧
    (∃ n : ℕ, expectedRate s = 400 + (n : ℚ) * 35) ∧
    (mismatch s = true ↔ parsedRate s ≠ expectedRate s) := by
  refine ⟨rfl, ⟨(chassisCount s).toNat, ?_⟩, ?_⟩
  · have h0 : 0 ≤ chassisCount s := le_max_right _ _
    have h1 : (((chassisCount s).toNat : ℤ) : ℚ) = ((chassisCount s : ℤ) : ℚ) := by
      rw [Int.toNat_of_nonneg h0]
    rw [expectedRate, DRAYAGE_RATE, CHASSIS_RATE]
    push_cast at h1 ⊢
    rw [h1]
  · rw [mismatch]
    exact bne_iff_ne

/-- C8: the spec's two end-to-end reconciliation vectors: `"$785.00"` gives
parsed 785, unit count 11, expected 785, no mismatch; `"$800.00"` gives unit
count 11, expected 785, mismatch. -/
theorem end_to_end_785_and_800 :
    parsedRate "$785.00" = 785 ∧ chassisCount "$785.00" = 11 ∧
    expectedRate "$785.00" = 785 ∧ mismatch "$785.00" = false ∧
    parsedRate "$800.00" = 800 ∧ chassisCount "$800.00" = 11 ∧
    expectedRate "$800.00" = 785 ∧ mismatch "$800.00" = true := by
  have c1 : chassisCount "$785.00" = 11 := by
    rw [chassisCount, parsedRate_785, chassisOf_785]
  have c2 : chassisCount "$800.00" = 11 := by
    rw [chassisCount, parsedRate_800, chassisOf_800]
  have e1 : expectedRate "$785.00" = 785 := by
    rw [expectedRate, c1]; norm_num [DRAYAGE_RATE, CHASSIS_RATE]
  have e2 : expectedRate "$800.00" = 785 := by
    rw [expectedRate, c2]; norm_num [DRAYAGE_RATE, CHASSIS_RATE]
  refine ⟨parsedRate_785, c1, e1, ?_, parsedRate_800, c2, e2, ?_⟩
  · rw [mismatch, parsedRate_785, e1]
    simp
  · rw [mismatch, parsedRate_800, e2]
    simp only [bne_iff_ne, ne_eq]
    norm_num

/-- C10: at exact halfway points the unit count rounds half-to-even
(Python's built-in `round`): parsed 417.50 gives `(417.50 − 400)/35 = 0.5`
and unit count 0, parsed 452.50 gives `1.5` and unit count 2 — both via the
actual pipeline on the rate strings as well. -/
theorem chassisCount_ties_round_half_to_even :
    ((417.5 : ℚ) - DRAYAGE_RATE) / CHASSIS_RATE = 1 / 2 ∧ chassisOf 417.5 = 0 ∧
    ((452.5 : ℚ) - DRAYAGE_RATE) / CHASSIS_RATE = 3 / 2 ∧ chassisOf 452.5 = 2 ∧
    parsedRate "417.50" = 417.5 ∧ chassisCount "417.50" = 0 ∧
    parsedRate "452.50" = 452.5 ∧ chassisCount "452.50" = 2 := by
  have hq1 : ((417.5 : ℚ) - DRAYAGE_RATE) / CHASSIS_RATE = 1 / 2 := by
    norm_num [DRAYAGE_RATE, CHASSIS_RATE]
  have hq2 : ((452.5 : ℚ) - DRAYAGE_RATE) / CHASSIS_RATE = 3 / 2 := by
    norm_num [DRAYAGE_RATE, CHASSIS_RATE]
  have hc1 : chassisOf 417.5 = 0 := by
    rw [chassisOf, hq1, pyRound_eval (1 / 2) 0 (by norm_num) (by norm_num)]
    norm_num
  have hc2 : chassisOf 452.5 = 2 := by
    rw [chassisOf, hq2, pyRound_eval (3 / 2) 1 (by norm_num) (by norm_num)]
    norm_num
  have hp1 : parsedRate "417.50" = 417.5 := by
    rw [parsedRate_of_raw "417.50" (false, 41750, 2, 0) (by decide)]
    norm_num [ratOfRaw, applyExp]
  have hp2 : parsedRate "452.50" = 452.5 := by
    rw [parsedRate_of_raw "452.50" (false, 45250, 2, 0) (by decide)]
    norm_num [ratOfRaw, applyExp]
  exact ⟨hq1, hc1, hq2, hc2, hp1, by rw [chassisCount, hp1, hc1],
    hp2, by rw [chassisCount, hp2, hc2]⟩

/-! ## Claim theorems: field extraction -/

/-- C7: extraction is total and every field is populated: an unmatched field
gets its sentinel ("Unknown" / "0.00" / "None" / ""), a matched reference is
returned as captured, a matched (truthy) rate is returned with its commas
stripped and no further validation, and a total decode failure yields the
all-sentinel tuple instead of propagating. -/
theorem extraction_total_and_sentinels :
    extract_data_from_pdf (Except.error ()) = ("Unknown", "0.00", "None", "") ∧
    ∀ pages : List (Option String),
      (find_match ref_patterns (joinPages pages) = none →
        (extract_data_from_pdf (Except.ok pages)).1 = "Unknown") ∧
      (find_match rate_patterns (joinPages pages) = none →
        (extract_data_from_pdf (Except.ok pages)).2.1 = "0.00") ∧
      (find_match equip_patterns (joinPages pages) = none →
        (extract_data_from_pdf (Except.ok pages)).2.2.1 = "None") ∧
      (find_match container_patterns (joinPages pages) = none →
        (extract_data_from_pdf (Except.ok pages)).2.2.2 = "") ∧
      (∀ r, find_match rate_patterns (joinPages pages) = some r → r ≠ "" →
        (extract_data_from_pdf (Except.ok pages)).2.1 = removeCommas r) ∧
      (∀ v, find_match ref_patterns (joinPages pages) = some v → v ≠ "" →
        (extract_data_from_pdf (Except.ok pages)).1 = v) := by
  refine ⟨rfl, fun pages => ?_⟩
  refine ⟨fun h => ?_, fun h => ?_, fun h => ?_, fun h => ?_,
    fun r h hr => ?_, fun v h hv => ?_⟩ <;>
    simp [extract_data_from_pdf, h, *]

/-- Witness for C7: a label-free page yields all four sentinels; a matched
rate comes back comma-stripped. -/
theorem extraction_total_and_sentinels_witness :
    (extract_data_from_pdf (Except.ok [some "no labels here"])).1 = "Unknown" ∧
    (extract_data_from_pdf (Except.ok [some "no labels here"])).2.1 = "0.00" ∧
    (extract_data_from_pdf (Except.ok [some "no labels here"])).2.2.1 = "None" ∧
    (extract_data_from_pdf (Except.ok [some "no labels here"])).2.2.2 = "" ∧
    (extract_data_from_pdf (Except.ok [some "Total Rate: $1,234.56"])).2.1 = "1234.56" := by
  have h := extraction_total_and_sentinels
  refine ⟨(h.2 [some "no labels here"]).1 (by decide),
    (h.2 [some "no labels here"]).2.1 (by decide),
    (h.2 [some "no labels here"]).2.2.1 (by decide),
    (h.2 [some "no labels here"]).2.2.2.1 (by decide),
    ((h.2 [some "Total Rate: $1,234.56"]).2.2.2.2.1 "1,234.56" (by decide)
      (by decide)).trans (by decide)⟩

/-- C6 counterexample: the text `"Route # 1234 Reference # 999"` contains
both `"Route # 123"` and `"Reference # 999"` as substrings, yet the extracted
reference is `"1234"`, not `"123"` — the claim's universal statement over all
texts containing those two substrings fails. -/
theorem extraction_first_match_counterexample :
    List.IsInfix "Route # 123".data "Route # 1234 Reference # 999".data ∧
    List.IsInfix "Reference # 999".data "Route # 1234 Reference # 999".data ∧
    (extract_data_from_pdf (Except.ok [some "Route # 1234 Reference # 999"])).1 = "1234" ∧
    (extract_data_from_pdf (Except.ok [some "Route # 1234 Reference # 999"])).1 ≠ "123" := by
  refine ⟨⟨[], "4 Reference # 999".data, by decide⟩,
    ⟨"Route # 1234 ".data, [], by decide⟩, by decide, by decide⟩

/-- C6 amended: field extraction tries the ordered pattern list
case-insensitively and the first matching pattern wins by priority, not text
position: whenever the `Route #` pattern matches the text at all, the
extracted reference is its (stripped) capture and the lower-priority
`Reference #` pattern is never consulted; on the two-label text
`"Reference # 999\nRoute # 123"` the extracted reference is `"123"`, never
`"999"`, although `Reference # 999` occurs earlier in the text. -/
theorem extraction_pattern_priority :
    (∀ text : String, ∀ cap : List Char,
      searchCapture routePat text.data = some cap →
      find_match ref_patterns text = some (pyStrip (String.mk cap))) ∧
    (extract_data_from_pdf (Except.ok [some "Reference # 999\nRoute # 123"])).1 = "123" ∧
    (extract_data_from_pdf (Except.ok [some "Reference # 999\nRoute # 123"])).1 ≠ "999" ∧
    (extract_data_from_pdf (Except.ok [some "ROUTE # 77"])).1 = "77" := by
  refine ⟨fun text cap h => ?_, by decide, by decide, by decide⟩
  simp [ref_patterns, find_match, h]

/-- Witness for C6's amended theorem: the `Route #` pattern matches inside a
longer text and its capture is what extraction returns. -/
theorem extraction_pattern_priority_witness :
    find_match ref_patterns "xx Route #  42" = some "42" := by
  have h := extraction_pattern_priority.1 "xx Route #  42" "42".data (by decide)
  exact h.trans (by decide)

/-! ## Helper lemmas for the ingest pipeline: the four outcomes of one step -/

theorem processFiles_dup_file (today : String) (ef refs : List String)
    (f : UploadedFile) (rest : List UploadedFile) (h : f.name ∈ ef) :
    processFiles today ef refs (f :: rest) =
      ((processFiles today ef refs rest).1,
       ⟨f.name, "Duplicate filename."⟩ :: (processFiles today ef refs rest).2) := by
  simp [processFiles, h]

theorem processFiles_unknown (today : String) (ef refs : List String)
    (f : UploadedFile) (rest : List UploadedFile) (h : f.name ∉ ef)
    (he : (extract_data_from_pdf f.doc).1 = "Unknown") :
    processFiles today ef refs (f :: rest) =
      ((processFiles today ef refs rest).1,
       ⟨f.name, "Unsupported Format."⟩ :: (processFiles today ef refs rest).2) := by
  simp [processFiles, h, he]

theorem processFiles_dup_ref (today : String) (ef refs : List String)
    (f : UploadedFile) (rest : List UploadedFile) (h : f.name ∉ ef)
    (he : (extract_data_from_pdf f.doc).1 ≠ "Unknown")
    (hr : (extract_data_from_pdf f.doc).1 ∈ refs) :
    processFiles today ef refs (f :: rest) =
      ((processFiles today ef refs rest).1,
       ⟨f.name, "Duplicate Reference # " ++ (extract_data_from_pdf f.doc).1⟩ ::
         (processFiles today ef refs rest).2) := by
  simp [processFiles, h, he, hr]

theorem processFiles_accept (today : String) (ef refs : List String)
    (f : UploadedFile) (rest : List UploadedFile) (h : f.name ∉ ef)
    (he : (extract_data_from_pdf f.doc).1 ≠ "Unknown")
    (hr : (extract_data_from_pdf f.doc).1 ∉ refs) :
    processFiles today ef refs (f :: rest) =
      (⟨today, DEFAULT_CUSTOMER, (extract_data_from_pdf f.doc).1,
          (extract_data_from_pdf f.doc).2.2.1, (extract_data_from_pdf f.doc).2.2.2,
          (extract_data_from_pdf f.doc).2.1, f.name, "Active", ""⟩ ::
         (processFiles today ef ((extract_data_from_pdf f.doc).1 :: refs) rest).1,
       (processFiles today ef ((extract_data_from_pdf f.doc).1 :: refs) rest).2) := by
  simp [processFiles, h, he, hr]

theorem processFiles_accepted_sublist (today : String) (ef : List String)
    (files : List UploadedFile) : ∀ refs : List String,
    List.Sublist ((processFiles today ef refs files).1.map (fun r => r.file))
      (files.map (fun f => f.name)) := by
  induction files with
  | nil => intro refs; simp [processFiles]
  | cons f rest ih =>
    intro refs
    by_cases hc : f.name ∈ ef
    · rw [processFiles_dup_file today ef refs f rest hc]
      exact (ih refs).cons f.name
    · by_cases he : (extract_data_from_pdf f.doc).1 = "Unknown"
      · rw [processFiles_unknown today ef refs f rest hc he]
        exact (ih refs).cons f.name
      · by_cases hr : (extract_data_from_pdf f.doc).1 ∈ refs
        · rw [processFiles_dup_ref today ef refs f rest hc he hr]
          exact (ih refs).cons f.name
        · rw [processFiles_accept today ef refs f rest hc he hr]
          exact (ih ((extract_data_from_pdf f.doc).1 :: refs)).cons₂ f.name

theorem processFiles_skipped_sublist (today : String) (ef : List String)
    (files : List UploadedFile) : ∀ refs : List String,
    List.Sublist ((processFiles today ef refs files).2.map (fun s => s.file))
      (files.map (fun f => f.name)) := by
  induction files with
  | nil => intro refs; simp [processFiles]
  | cons f rest ih =>
    intro refs
    by_cases hc : f.name ∈ ef
    · rw [processFiles_dup_file today ef refs f rest hc]
      exact (ih refs).cons₂ f.name
    · by_cases he : (extract_data_from_pdf f.doc).1 = "Unknown"
      · rw [processFiles_unknown today ef refs f rest hc he]
        exact (ih refs).cons₂ f.name
      · by_cases hr : (extract_data_from_pdf f.doc).1 ∈ refs
        · rw [processFiles_dup_ref today ef refs f rest hc he hr]
          exact (ih refs).cons₂ f.name
        · rw [processFiles_accept today ef refs f rest hc he hr]
          exact (ih ((extract_data_from_pdf f.doc).1 :: refs)).cons f.name

theorem processFiles_length (today : String) (ef : List String)
    (files : List UploadedFile) : ∀ refs : List String,
    (processFiles today ef refs files).1.length +
      (processFiles today ef refs files).2.length = files.length := by
  induction files with
  | nil => intro refs; simp [processFiles]
  | cons f rest ih =>
    intro refs
    by_cases hc : f.name ∈ ef
    · rw [processFiles_dup_file today ef refs f rest hc]
      have := ih refs; simp only [List.length_cons]; omega
    · by_cases he : (extract_data_from_pdf f.doc).1 = "Unknown"
      · rw [processFiles_unknown today ef refs f rest hc he]
        have := ih refs; simp only [List.length_cons]; omega
      · by_cases hr : (extract_data_from_pdf f.doc).1 ∈ refs
        · rw [processFiles_dup_ref today ef refs f rest hc he hr]
          have := ih refs; simp only [List.length_cons]; omega
        · rw [processFiles_accept today ef refs f rest hc he hr]
          have := ih ((extract_data_from_pdf f.doc).1 :: refs)
          simp only [List.length_cons]; omega

/-- Every accepted record has the accept-branch shape, comes from one of the
input files, and passed all three checks (filename not among existing
filenames, reference extracted, reference not in the incoming reference
set). -/
theorem processFiles_accepted_shape (today : String) (ef : List String)
    (files : List UploadedFile) : ∀ refs : List String,
    ∀ r ∈ (processFiles today ef refs files).1,
      r.dateAdded = today ∧ r.customer = DEFAULT_CUSTOMER ∧
      r.status = "Active" ∧ r.notes = "" ∧
      r.file ∉ ef ∧ r.reference ≠ "Unknown" ∧ r.reference ∉ refs ∧
      ∃ f ∈ files, f.name = r.file ∧
        extract_data_from_pdf f.doc = (r.reference, r.rate, r.equipment, r.container) := by
  induction files with
  | nil => intro refs r hr; simp [processFiles] at hr
  | cons f rest ih =>
    intro refs r hr
    by_cases hc : f.name ∈ ef
    · rw [processFiles_dup_file today ef refs f rest hc] at hr
      obtain ⟨h1, h2, h3, h4, h5, h6, h7, g, hg, hgn, hge⟩ := ih refs r hr
      exact ⟨h1, h2, h3, h4, h5, h6, h7, g, List.mem_cons_of_mem f hg, hgn, hge⟩
    · by_cases he : (extract_data_from_pdf f.doc).1 = "Unknown"
      · rw [processFiles_unknown today ef refs f rest hc he] at hr
        obtain ⟨h1, h2, h3, h4, h5, h6, h7, g, hg, hgn, hge⟩ := ih refs r hr
        exact ⟨h1, h2, h3, h4, h5, h6, h7, g, List.mem_cons_of_mem f hg, hgn, hge⟩
      · by_cases hrc : (extract_data_from_pdf f.doc).1 ∈ refs
        · rw [processFiles_dup_ref today ef refs f rest hc he hrc] at hr
          obtain ⟨h1, h2, h3, h4, h5, h6, h7, g, hg, hgn, hge⟩ := ih refs r hr
          exact ⟨h1, h2, h3, h4, h5, h6, h7, g, List.mem_cons_of_mem f hg, hgn, hge⟩
        · rw [processFiles_accept today ef refs f rest hc he hrc] at hr
          rcases List.mem_cons.mp hr with hhead | htail
          · subst hhead
            exact ⟨rfl, rfl, rfl, rfl, hc, he, hrc, f, List.mem_cons_self f rest, rfl, rfl⟩
          · obtain ⟨h1, h2, h3, h4, h5, h6, h7, g, hg, hgn, hge⟩ :=
              ih ((extract_data_from_pdf f.doc).1 :: refs) r htail
            refine ⟨h1, h2, h3, h4, h5, h6, fun hmem => h7 (List.mem_cons_of_mem _ hmem),
              g, List.mem_cons_of_mem f hg, hgn, hge⟩

/-- The accepted references of one batch are pairwise distinct: the
reference set is updated after each acceptance. -/
theorem processFiles_accepted_refs_nodup (today : String) (ef : List String)
    (files : List UploadedFile) : ∀ refs : List String,
    ((processFiles today ef refs files).1.map (fun r => r.reference)).Nodup := by
  induction files with
  | nil => intro refs; simp [processFiles]
  | cons f rest ih =>
    intro refs
    by_cases hc : f.name ∈ ef
    · rw [processFiles_dup_file today ef refs f rest hc]; exact ih refs
    · by_cases he : (extract_data_from_pdf f.doc).1 = "Unknown"
      · rw [processFiles_unknown today ef refs f rest hc he]; exact ih refs
      · by_cases hr : (extract_data_from_pdf f.doc).1 ∈ refs
        · rw [processFiles_dup_ref today ef refs f rest hc he hr]; exact ih refs
        · rw [processFiles_accept today ef refs f rest hc he hr]
          rw [List.map_cons, List.nodup_cons]
          constructor
          · intro hmem
            obtain ⟨r, hrmem, hrref⟩ := List.mem_map.mp hmem
            have := (processFiles_accepted_shape today ef rest
              ((extract_data_from_pdf f.doc).1 :: refs) r hrmem).2.2.2.2.2.2.1
            rw [hrref] at this
            exact this (List.mem_cons_self _ _)
          · exact ih ((extract_data_from_pdf f.doc).1 :: refs)

/-- A file whose name is in the existing-filenames set is always skipped with
the duplicate-filename reason. -/
theorem processFiles_dup_filename_skipped (today : String) (ef : List String)
    (files : List UploadedFile) : ∀ refs : List String,
    ∀ f ∈ files, f.name ∈ ef →
      (⟨f.name, "Duplicate filename."⟩ : SkippedFile) ∈
        (processFiles today ef refs files).2 := by
  induction files with
  | nil => intro refs f hf; simp at hf
  | cons g rest ih =>
    intro refs f hf hdup
    rcases List.mem_cons.mp hf with hhead | htail
    · subst hhead
      rw [processFiles_dup_file today ef refs f rest hdup]
      exact List.mem_cons_self _ _
    · by_cases hc : g.name ∈ ef
      · rw [processFiles_dup_file today ef refs g rest hc]
        exact List.mem_cons_of_mem _ (ih refs f htail hdup)
      · by_cases he : (extract_data_from_pdf g.doc).1 = "Unknown"
        · rw [processFiles_unknown today ef refs g rest hc he]
          exact List.mem_cons_of_mem _ (ih refs f htail hdup)
        · by_cases hr : (extract_data_from_pdf g.doc).1 ∈ refs
          · rw [processFiles_dup_ref today ef refs g rest hc he hr]
            exact List.mem_cons_of_mem _ (ih refs f htail hdup)
          · rw [processFiles_accept today ef refs g rest hc he hr]
            exact ih ((extract_data_from_pdf g.doc).1 :: refs) f htail hdup

/-! ## Claim theorems: ingest pipeline -/

/-- C3: documents are processed in input order, each document gets exactly one
outcome by stopping at the first applicable check (duplicate filename;
unextractable reference; duplicate reference; otherwise accepted with today's
date, default customer "Covenant", the extracted fields, the document's
filename, status "Active" and empty notes), and the accepted and skipped
lists both preserve the input order of the documents. -/
theorem ingest_order_and_outcomes :
    (∀ (today : String) (ef refs : List String) (f : UploadedFile)
        (rest : List UploadedFile),
      (f.name ∈ ef →
        processFiles today ef refs (f :: rest) =
          ((processFiles today ef refs rest).1,
           ⟨f.name, "Duplicate filename."⟩ :: (processFiles today ef refs rest).2)) ∧
      (f.name ∉ ef → (extract_data_from_pdf f.doc).1 = "Unknown" →
        processFiles today ef refs (f :: rest) =
          ((processFiles today ef refs rest).1,
           ⟨f.name, "Unsupported Format."⟩ :: (processFiles today ef refs rest).2)) ∧
      (f.name ∉ ef → (extract_data_from_pdf f.doc).1 ≠ "Unknown" →
        (extract_data_from_pdf f.doc).1 ∈ refs →
        processFiles today ef refs (f :: rest) =
          ((processFiles today ef refs rest).1,
           ⟨f.name, "Duplicate Reference # " ++ (extract_data_from_pdf f.doc).1⟩ ::
             (processFiles today ef refs rest).2)) ∧
      (f.name ∉ ef → (extract_data_from_pdf f.doc).1 ≠ "Unknown" →
        (extract_data_from_pdf f.doc).1 ∉ refs →
        processFiles today ef refs (f :: rest) =
          (⟨today, DEFAULT_CUSTOMER, (extract_data_from_pdf f.doc).1,
              (extract_data_from_pdf f.doc).2.2.1, (extract_data_from_pdf f.doc).2.2.2,
              (extract_data_from_pdf f.doc).2.1, f.name, "Active", ""⟩ ::
             (processFiles today ef ((extract_data_from_pdf f.doc).1 :: refs) rest).1,
           (processFiles today ef ((extract_data_from_pdf f.doc).1 :: refs) rest).2))) ∧
    (∀ (today : String) (store : List LoadRecord) (files : List UploadedFile),
      List.Sublist ((run_file_processing today store files).1.map (fun r => r.file))
        (files.map (fun f => f.name)) ∧
      List.Sublist ((run_file_processing today store files).2.map (fun s => s.file))
        (files.map (fun f => f.name)) ∧
      (run_file_processing today store files).1.length +
        (run_file_processing today store files).2.length = files.length ∧
      ∀ r ∈ (run_file_processing today store files).1,
        r.dateAdded = today ∧ r.customer = "Covenant" ∧ r.status = "Active" ∧
        r.notes = "" ∧
        ∃ f ∈ files, f.name = r.file ∧
          extract_data_from_pdf f.doc = (r.reference, r.rate, r.equipment, r.container)) := by
  constructor
  · intro today ef refs f rest
    exact ⟨processFiles_dup_file today ef refs f rest,
      processFiles_unknown today ef refs f rest,
      processFiles_dup_ref today ef refs f rest,
      processFiles_accept today ef refs f rest⟩
  · intro today store files
    refine ⟨processFiles_accepted_sublist today (existingFiles store) files (existingRefs store),
      processFiles_skipped_sublist today (existingFiles store) files (existingRefs store),
      processFiles_length today (existingFiles store) files (existingRefs store),
      fun r hr => ?_⟩
    obtain ⟨h1, h2, h3, h4, _, _, _, g, hg, hgn, hge⟩ :=
      processFiles_accepted_shape today (existingFiles store) files (existingRefs store) r hr
    exact ⟨h1, h2, h3, h4, g, hg, hgn, hge⟩

/-- Witness for C3: one concrete instance of each of the four outcomes. -/
theorem ingest_order_and_outcomes_witness :
    processFiles "2026-10-12" ["a.pdf"] [] [⟨"a.pdf", Except.error ()⟩] =
      ([], [⟨"a.pdf", "Duplicate filename."⟩]) ∧
    processFiles "2026-10-12" [] [] [⟨"b.pdf", Except.error ()⟩] =
      ([], [⟨"b.pdf", "Unsupported Format."⟩]) ∧
    processFiles "2026-10-12" [] ["R1"] [⟨"c.pdf", Except.ok [some "Route # R1"]⟩] =
      ([], [⟨"c.pdf", "Duplicate Reference # R1"⟩]) ∧
    processFiles "2026-10-12" [] [] [⟨"c.pdf", Except.ok [some "Route # R1"]⟩] =
      ([⟨"2026-10-12", "Covenant", "R1", "None", "", "0.00", "c.pdf", "Active", ""⟩], []) := by
  have h := ingest_order_and_outcomes.1
  refine ⟨?_, ?_, ?_, ?_⟩
  · rw [(h "2026-10-12" ["a.pdf"] [] ⟨"a.pdf", Except.error ()⟩ []).1 (by decide)]
    decide
  · rw [(h "2026-10-12" [] [] ⟨"b.pdf", Except.error ()⟩ []).2.1 (by decide) (by decide)]
    decide
  · rw [(h "2026-10-12" [] ["R1"] ⟨"c.pdf", Except.ok [some "Route # R1"]⟩ []).2.2.1
      (by decide) (by decide) (by decide)]
    decide
  · rw [(h "2026-10-12" [] [] ⟨"c.pdf", Except.ok [some "Route # R1"]⟩ []).2.2.2
      (by decide) (by decide) (by decide)]
    decide

/-- C4: the in-memory reference set is updated after each acceptance, so
within-batch duplicate references are rejected: with existing references
`{"A"}` and two documents both extracting reference `"B"`, the first is
accepted and the second is skipped with reason `"Duplicate Reference # B"`;
in general the accepted references of a batch are pairwise distinct. -/
theorem ingest_within_batch_duplicate_refs :
    run_file_processing "2026-10-12"
        [⟨"2026-01-01", "Covenant", "A", "None", "", "0.00", "a.pdf", "Active", ""⟩]
        [⟨"b1.pdf", Except.ok [some "Route # B"]⟩,
         ⟨"b2.pdf", Except.ok [some "Route # B"]⟩] =
      ([⟨"2026-10-12", "Covenant", "B", "None", "", "0.00", "b1.pdf", "Active", ""⟩],
       [⟨"b2.pdf", "Duplicate Reference # B"⟩]) ∧
    (∀ (today : String) (store : List LoadRecord) (files : List UploadedFile),
      ((run_file_processing today store files).1.map (fun r => r.reference)).Nodup) := by
  exact ⟨by decide, fun today store files =>
    processFiles_accepted_refs_nodup today (existingFiles store) files (existingRefs store)⟩

/-- C5 counterexample: with an empty store, a batch of two documents that
share the filename `"dup.pdf"` but carry distinct references `B1`/`B2` has
BOTH documents accepted — the second is not rejected although its filename
duplicates one accepted earlier in the same batch, so `sourceFile` is not
unique across the union of existing and accepted records. -/
theorem filename_unique_counterexample :
    run_file_processing "2026-10-12" []
        [⟨"dup.pdf", Except.ok [some "Route # B1"]⟩,
         ⟨"dup.pdf", Except.ok [some "Route # B2"]⟩] =
      ([⟨"2026-10-12", "Covenant", "B1", "None", "", "0.00", "dup.pdf", "Active", ""⟩,
        ⟨"2026-10-12", "Covenant", "B2", "None", "", "0.00", "dup.pdf", "Active", ""⟩],
       []) ∧
    ¬ ((run_file_processing "2026-10-12" []
        [⟨"dup.pdf", Except.ok [some "Route # B1"]⟩,
         ⟨"dup.pdf", Except.ok [some "Route # B2"]⟩]).1.map (fun r => r.file)).Nodup := by
  exact ⟨by decide, by decide⟩

/-- C5 amended: filename deduplication is enforced only against the
pre-existing record set: a document whose filename is already among the
existing records' filenames is always skipped with reason
`"Duplicate filename."`, and no accepted record's filename collides with an
existing one — but filenames duplicated only within the batch are not
rejected. -/
theorem filename_unique_vs_existing :
    ∀ (today : String) (store : List LoadRecord) (files : List UploadedFile),
      (∀ r ∈ (run_file_processing today store files).1, r.file ∉ existingFiles store) ∧
      (∀ f ∈ files, f.name ∈ existingFiles store →
        (⟨f.name, "Duplicate filename."⟩ : SkippedFile) ∈
          (run_file_processing today store files).2) := by
  intro today store files
  exact ⟨fun r hr =>
      (processFiles_accepted_shape today (existingFiles store) files
        (existingRefs store) r hr).2.2.2.2.1,
    fun f hf hdup =>
      processFiles_dup_filename_skipped today (existingFiles store) files
        (existingRefs store) f hf hdup⟩

/-- Witness for C5's amended theorem: a concrete duplicate-of-existing
filename is skipped. -/
theorem filename_unique_vs_existing_witness :
    (⟨"a.pdf", "Duplicate filename."⟩ : SkippedFile) ∈
      (run_file_processing "2026-10-12"
        [⟨"2026-01-01", "Covenant", "A", "None", "", "0.00", "a.pdf", "Active", ""⟩]
        [⟨"a.pdf", Except.error ()⟩]).2 := by
  exact (filename_unique_vs_existing "2026-10-12"
      [⟨"2026-01-01", "Covenant", "A", "None", "", "0.00", "a.pdf", "Active", ""⟩]
      [⟨"a.pdf", Except.error ()⟩]).2
    ⟨"a.pdf", Except.error ()⟩ (List.mem_singleton.mpr rfl) (by decide)

/-- C9: processing a batch persists nothing: the store field of the
application state is unchanged by `run_file_processing` (the results only go
to the in-memory session fields), and it is the separate, later
`run_save_records` step that appends exactly the pending accepted records to
the store. -/
theorem processing_does_not_persist :
    ∀ (today : String) (files : List UploadedFile) (st : AppState),
      (run_file_processing_st today files st).store = st.store ∧
      (run_file_processing_st today files st).processed_records =
        (if files.isEmpty then st.processed_records
         else (run_file_processing today st.store files).1) ∧
      (run_file_processing_st today files st).skipped_files =
        (if files.isEmpty then st.skipped_files
         else (run_file_processing today st.store files).2) ∧
      (run_save_records_st st).store = st.store ++ st.processed_records := by
  intro today files st
  refine ⟨?_, ?_, ?_, ?_⟩
  · by_cases h : files.isEmpty <;> simp [run_file_processing_st, h]
  · by_cases h : files.isEmpty <;> simp [run_file_processing_st, h]
  · by_cases h : files.isEmpty <;> simp [run_file_processing_st, h]
  · by_cases h : st.processed_records.isEmpty
    · rw [List.isEmpty_iff] at h
      simp [run_save_records_st, h]
    · simp [run_save_records_st, h]

end RateCon
